import Mathlib

/-!
Verification of the streaming client subsystem of the go-twitter repository
(`twitter/streams.go`), via a shallow embedding in Lean 4.

The embedding covers:
* a JSON value model and a parser mirroring `encoding/json` syntax, at the
  granularity needed by `json.Unmarshal(token, &map[string]interface{})`;
* `getMessage` / `decodeMessage` / `hasPath` (message classification);
* `receive` (the per-connection read loop), with the frame reader abstracted
  by the sequence of its `readNext` results;
* `retry` (the reconnect state machine), parametric over the two backoff
  policies exactly as the Go function is parametric over `backoff.BackOff`,
  producing a trace of the observable events of one background-task run;
* `Stop` (the facade), modelling Go channel-close semantics.

Go machine details that matter here: `backoff.Stop` is the `time.Duration`
value `-1`; closing an already-closed channel panics; deferred calls run in
last-in-first-out order at function exit; `json.Unmarshal` errors inside
`decodeMessage` are discarded by the source.
-/

namespace GoTwitter

/-- A JSON value as `encoding/json` sees it.  Numbers keep their source
literal: no claim depends on numeric value, only on shape. -/
inductive Json where
  | null
  | bool (b : Bool)
  | num (lit : String)
  | str (s : String)
  | arr (elems : List Json)
  | obj (fields : List (String × Json))

/-- JSON whitespace accepted by `encoding/json` between tokens. -/
def isJsonWs (c : Char) : Bool :=
  c = ' ' || c = '\t' || c = '\n' || c = '\r'

def skipWs (cs : List Char) : List Char := cs.dropWhile isJsonWs

def isDigit (c : Char) : Bool := '0' ≤ c && c ≤ '9'

/-- Value of one hexadecimal digit (either letter case). -/
def hexVal (c : Char) : Option Nat :=
  let n := c.toNat
  if 48 ≤ n ∧ n ≤ 57 then some (n - 48)
  else if 97 ≤ n ∧ n ≤ 102 then some (n - 87)
  else if 65 ≤ n ∧ n ≤ 70 then some (n - 55)
  else none

/-- The single-character escapes `encoding/json` accepts after a
backslash, mapped to the character they denote (control characters are
written via their code points). -/
def unescapeChar (e : Char) : Option Char :=
  if e = '"' ∨ e = '\\' ∨ e = '/' then some e
  else if e = 'b' then some (Char.ofNat 8)
  else if e = 't' then some (Char.ofNat 9)
  else if e = 'n' then some (Char.ofNat 10)
  else if e = 'f' then some (Char.ofNat 12)
  else if e = 'r' then some (Char.ofNat 13)
  else none

/-- The code point of a `u`-escape's four hex digits. -/
def hexQuad (a b c d : Char) : Option Nat :=
  match hexVal a, hexVal b, hexVal c, hexVal d with
  | some ha, some hb, some hc, some hd =>
    some (((ha * 16 + hb) * 16 + hc) * 16 + hd)
  | _, _, _, _ => none

/-- Body of a JSON string after the opening quote: escapes as in
`encoding/json`; raw control characters below U+0020 are rejected. -/
def parseStringBody : List Char → List Char → Option (String × List Char)
  | _, [] => none
  | acc, c :: rest =>
    if c = '"' then some (String.mk acc.reverse, rest)
    else if c = '\\' then
      match rest with
      | [] => none
      | e :: rest1 =>
        if e = 'u' then
          match rest1 with
          | a :: b :: c2 :: d :: rest2 =>
            match hexQuad a b c2 d with
            | some n => parseStringBody (Char.ofNat n :: acc) rest2
            | none => none
          | _ => none
        else
          match unescapeChar e with
          | some u => parseStringBody (u :: acc) rest1
          | none => none
    else if c.toNat < 32 then none
    else parseStringBody (c :: acc) rest

/-- `cs.span isDigit`: leading digits and the remainder. -/
def takeDigits (cs : List Char) : List Char × List Char :=
  (cs.takeWhile isDigit, cs.dropWhile isDigit)

/-- Exponent part of a JSON number literal (optional). -/
def parseExpPart (intFrac : List Char) (cs : List Char) : Option (String × List Char) :=
  match cs with
  | 'e' :: rest | 'E' :: rest =>
    let (sign, rest') := match rest with
      | '+' :: r => (['+'], r)
      | '-' :: r => (['-'], r)
      | r => ([], r)
    let (ds, rest'') := takeDigits rest'
    if ds.isEmpty then none
    else some (String.mk (intFrac ++ 'e' :: sign ++ ds), rest'')
  | _ => some (String.mk intFrac, cs)

/-- Fraction and exponent parts of a JSON number literal (optional). -/
def parseFracPart (intPart : List Char) (cs : List Char) : Option (String × List Char) :=
  match cs with
  | '.' :: rest =>
    let (ds, rest') := takeDigits rest
    if ds.isEmpty then none else parseExpPart (intPart ++ '.' :: ds) rest'
  | _ => parseExpPart intPart cs

/-- A JSON number literal: `-?(0|[1-9][0-9]*)(\.[0-9]+)?([eE][+-]?[0-9]+)?`.
A leading `0` may not be followed by further integer digits. -/
def parseNumberLit (cs : List Char) : Option (String × List Char) :=
  let neg : List Char := if cs.head? = some '-' then ['-'] else []
  match if neg.isEmpty then cs else cs.tail with
  | [] => none
  | c :: r =>
    if c = '0' then parseFracPart (neg ++ [c]) r
    else if isDigit c then
      let (ds, r') := takeDigits r
      parseFracPart (neg ++ c :: ds) r'
    else none

/-- Object member insertion: assigning `data[k] = v` on a Go map overwrites
any earlier binding of `k`; new keys are appended. -/
def insertField (fs : List (String × Json)) (k : String) (v : Json) : List (String × Json) :=
  match fs with
  | [] => [(k, v)]
  | (k', v') :: rest => if k' = k then (k', v) :: rest else (k', v') :: insertField rest k v

/-- Strip an expected keyword (`null`, `true`, `false`) from the front of
the input, returning the remainder on success. -/
def stripLit : List Char → List Char → Option (List Char)
  | [], cs => some cs
  | l :: ls, c :: cs => if c = l then stripLit ls cs else none
  | _ :: _, [] => none

mutual

/-- One JSON value, fuel-indexed for termination.  Dispatch mirrors
`encoding/json`'s scanner: strings, arrays, objects, then the keyword
literals and numbers. -/
def parseVal : Nat → List Char → Option (Json × List Char)
  | 0, _ => none
  | fuel + 1, cs =>
    match skipWs cs with
    | '"' :: rest => (parseStringBody [] rest).map fun p => (.str p.1, p.2)
    | '[' :: rest =>
      match skipWs rest with
      | ']' :: rest' => some (.arr [], rest')
      | _ => parseElems fuel rest []
    | '\x7b' :: rest =>
      match skipWs rest with
      | '\x7d' :: rest' => some (.obj [], rest')
      | _ => parseMembers fuel rest []
    | cs' =>
      ((stripLit "null".data cs').map fun r => (Json.null, r))
      <|> ((stripLit "true".data cs').map fun r => (Json.bool true, r))
      <|> ((stripLit "false".data cs').map fun r => (Json.bool false, r))
      <|> ((parseNumberLit cs').map fun p => (.num p.1, p.2))

/-- Array elements after `[` (non-empty case): value, then `,` or `]`. -/
def parseElems : Nat → List Char → List Json → Option (Json × List Char)
  | 0, _, _ => none
  | fuel + 1, cs, acc =>
    match parseVal fuel cs with
    | none => none
    | some (v, rest) =>
      match skipWs rest with
      | ',' :: rest' => parseElems fuel rest' (v :: acc)
      | ']' :: rest' => some (.arr (v :: acc).reverse, rest')
      | _ => none

/-- Object members after `\x7b` (non-empty case): string key, `:`, value,
then `,` or `\x7d`. -/
def parseMembers : Nat → List Char → List (String × Json) → Option (Json × List Char)
  | 0, _, _ => none
  | fuel + 1, cs, acc =>
    match skipWs cs with
    | '"' :: rest =>
      match parseStringBody [] rest with
      | none => none
      | some (k, rest1) =>
        match skipWs rest1 with
        | ':' :: rest2 =>
          match parseVal fuel rest2 with
          | none => none
          | some (v, rest3) =>
            match skipWs rest3 with
            | ',' :: rest4 => parseMembers fuel rest4 (insertField acc k v)
            | '\x7d' :: rest4 => some (.obj (insertField acc k v), rest4)
            | _ => none
        | _ => none
    | _ => none

end

/-- Parse a whole token as one JSON value; like `json.Unmarshal`, trailing
non-whitespace after the value is a syntax error.  The fuel `2 * length + 4`
suffices: every recursive step consumes input. -/
def parseJson (tok : List Char) : Option Json :=
  match parseVal (2 * tok.length + 4) tok with
  | some (v, rest) => if (skipWs rest).isEmpty then some v else none
  | none => none

/-- Lookup of a top-level key, as Go's `data[key]` on the decoded map. -/
def lookupField : List (String × Json) → String → Option Json
  | [], _ => none
  | (k, v) :: rest, key => if k = key then some v else lookupField rest key

/-- Error text standing for Go's JSON syntax errors (the concrete message is
irrelevant to every claim; only which tokens error matters). -/
def syntaxErrMsg : String := "invalid character"

/-- Error text standing for Go's type error when a valid non-object JSON
value is unmarshalled into `map[string]interface{}`. -/
def mapTypeErrMsg : String := "json: cannot unmarshal value into Go value of type map"

/-- `json.Unmarshal(token, &data)` for `data : map[string]interface{}`:
a syntax error if the token is not valid JSON; the fields if it is an
object; the literal `null` unmarshals without error and leaves the map
nil (an empty mapping); any other valid JSON value is a type error. -/
def unmarshalMap (token : List Char) : Except String (List (String × Json)) :=
  match parseJson token with
  | none => .error syntaxErrMsg
  | some (.obj fields) => .ok fields
  | some .null => .ok []
  | some _ => .error mapTypeErrMsg

/-- The two string fields of the source `Tweet` struct (src `part_000`)
that the claims exercise: `ID string json:"id"` and `Text string
json:"text"`.  The remaining fields are passive data carriers and are
abstracted away; decoding a Go string field leaves the zero value `""`
when the JSON value is absent, `null`, or of the wrong type (the decoder's
error for a wrong type is discarded by `decodeMessage`). -/
structure TweetM where
  id : String
  text : String

/-- Go string-field decode with discarded errors: a JSON string populates
the field, anything else leaves the zero value `""`. -/
def strFieldZero (v : Option Json) : String :=
  match v with
  | some (.str s) => s
  | _ => ""

/-- `json.Unmarshal(token, tweet)` restricted to the modelled fields. -/
def tweetFromFields (fields : List (String × Json)) : TweetM :=
  { id := strFieldZero (lookupField fields "id")
    text := strFieldZero (lookupField fields "text") }

/-- Whether `json.Unmarshal(token, tweet)` would report an error for the
modelled `id` field (`Tweet.ID` is a Go `string`): present with a value
that is neither a string nor `null`.  The source discards this error. -/
def tweetIdDecodeFails (fields : List (String × Json)) : Bool :=
  match lookupField fields "id" with
  | some (.str _) => false
  | some .null => false
  | none => false
  | some _ => true

/-- Decoding a JSON value into a Go pointer field (`*T` for struct `T`)
with the `Unmarshal` error discarded: a `null` value or an absent key
leaves the pointer nil; any other value makes the decoder allocate the
pointer (even when decoding its contents then fails), so the payload is
the raw value.  This is the unwrap step of every single-field envelope. -/
def ptrField (fields : List (String × Json)) (key : String) : Option Json :=
  match lookupField fields key with
  | some .null => none
  | some v => some v
  | none => none

/-- Unwrap of `statusDeletionNotice`: the source returns
`notice.Delete.StatusDeletion`, a pointer under the two-level path
`delete` / `status`.  Modelled from the spec: the notice struct itself is
not under src/ (only its field access in `decodeMessage` is); per the
spec, deletion notices wrap a single payload that is unwrapped before
delivery, with the payload's `id` a string (spec example id `"1"`). -/
def deleteStatusPayload (fields : List (String × Json)) : Option Json :=
  match lookupField fields "delete" with
  | some (.obj inner) => ptrField inner "status"
  | _ => none

/-- The `id` field of a status-deletion payload.  Modelled from the spec:
classifying the spec's example token yields a deletion notice with id
`"1"`, so the payload's id is its `id` member decoded as a string. -/
def statusDeletionId (payload : Option Json) : String :=
  match payload with
  | some (.obj inner) => strFieldZero (lookupField inner "id")
  | _ => ""

/-- The channel payload produced by `getMessage`: one variant per branch of
`decodeMessage`, plus the unmarshal error and the untyped fallback (in Go
all of these travel as `interface{}` values).  Envelope variants carry
their unwrapped inner payload (`Option` is the pointer's nil-ness);
`friendsList`, `event` and `streamData` decode the whole token, carried
here as its parsed fields. -/
inductive Message where
  | decodeError (e : String)
  | tweet (t : TweetM)
  | directMessage (payload : Option Json)
  | statusDeletion (payload : Option Json)
  | locationDeletion (payload : Option Json)
  | streamLimit (payload : Option Json)
  | statusWithheld (payload : Option Json)
  | userWithheld (payload : Option Json)
  | streamDisconnect (payload : Option Json)
  | stallWarning (payload : Option Json)
  | friendsList (fields : List (String × Json))
  | event (fields : List (String × Json))
  | streamData (fields : List (String × Json))
  | untypedRecord (fields : List (String × Json))

def Message.isDecodeError : Message → Bool
  | .decodeError _ => true
  | _ => false

def Message.isUntypedRecord : Message → Bool
  | .untypedRecord _ => true
  | _ => false

/-- `hasPath` from the source: `_, ok := data[key]`. -/
def hasPath (data : List (String × Json)) (key : String) : Bool :=
  (lookupField data key).isSome

/-- `decodeMessage` from the source: the if/else-if chain over top-level
key presence, first match wins; each envelope branch re-decodes the token
into its notice struct (errors discarded) and returns the inner field. -/
def decodeMessage (data : List (String × Json)) : Message :=
  if hasPath data "retweet_count" then .tweet (tweetFromFields data)
  else if hasPath data "direct_message" then .directMessage (ptrField data "direct_message")
  else if hasPath data "delete" then .statusDeletion (deleteStatusPayload data)
  else if hasPath data "scrub_geo" then .locationDeletion (ptrField data "scrub_geo")
  else if hasPath data "limit" then .streamLimit (ptrField data "limit")
  else if hasPath data "status_withheld" then .statusWithheld (ptrField data "status_withheld")
  else if hasPath data "user_withheld" then .userWithheld (ptrField data "user_withheld")
  else if hasPath data "disconnect" then .streamDisconnect (ptrField data "disconnect")
  else if hasPath data "warning" then .stallWarning (ptrField data "warning")
  else if hasPath data "friends" then .friendsList data
  else if hasPath data "event" then .event data
  else if hasPath data "matching_rules" then .streamData data
  else .untypedRecord data

/-- `getMessage` from the source: unmarshal the token into a map; on error
return the error itself, otherwise classify via `decodeMessage`. -/
def getMessage (token : List Char) : Message :=
  match unmarshalMap token with
  | .error e => .decodeError e
  | .ok data => decodeMessage data

/-- The trigger key of each classified variant (none for the error and
fallback variants).  Used to state first-match-wins compactly. -/
def keyOf : Message → Option String
  | .decodeError _ => none
  | .tweet _ => some "retweet_count"
  | .directMessage _ => some "direct_message"
  | .statusDeletion _ => some "delete"
  | .locationDeletion _ => some "scrub_geo"
  | .streamLimit _ => some "limit"
  | .statusWithheld _ => some "status_withheld"
  | .userWithheld _ => some "user_withheld"
  | .streamDisconnect _ => some "disconnect"
  | .stallWarning _ => some "warning"
  | .friendsList _ => some "friends"
  | .event _ => some "event"
  | .streamData _ => some "matching_rules"
  | .untypedRecord _ => none

/-- Specification-side definition, following the spec's words (§4.3 step
2): the first key of the fixed priority list present in the mapping. -/
def firstMatch (data : List (String × Json)) : Option String :=
  if hasPath data "retweet_count" then some "retweet_count"
  else if hasPath data "direct_message" then some "direct_message"
  else if hasPath data "delete" then some "delete"
  else if hasPath data "scrub_geo" then some "scrub_geo"
  else if hasPath data "limit" then some "limit"
  else if hasPath data "status_withheld" then some "status_withheld"
  else if hasPath data "user_withheld" then some "user_withheld"
  else if hasPath data "disconnect" then some "disconnect"
  else if hasPath data "warning" then some "warning"
  else if hasPath data "friends" then some "friends"
  else if hasPath data "event" then some "event"
  else if hasPath data "matching_rules" then some "matching_rules"
  else none

/-- One result of `reader.readNext()`: a token, or any error (including
end-of-stream — the source treats every error alike).  The frame reader
itself (`newStreamResponseBodyReader`) is not under src/, so a connection's
body is abstracted by the sequence of read results it yields. -/
inductive ReadResult where
  | tok (data : List Char)
  | err

/-- `receive` from the source, driven by the reader's results: any error
ends reception; a zero-length token is an empty keep-alive and is skipped;
otherwise `getMessage data` is sent on the Messages channel.  The returned
list is the sequence of sent messages in send order.  (An exhausted result
list stands for the `done` channel closing; the `select` on `s.done`
around the send is the cancellation race, outside this sequential model.) -/
def receive : List ReadResult → List Message
  | [] => []
  | .err :: _ => []
  | .tok data :: rest =>
    if data.isEmpty then receive rest
    else getMessage data :: receive rest

/-- Specification-side definition, following the spec's words (§8): the
tokens the frame reader produced before its first error, in order. -/
def tokensBeforeError : List ReadResult → List (List Char)
  | [] => []
  | .err :: _ => []
  | .tok data :: rest => data :: tokensBeforeError rest

/-- Go's `backoff.Stop` sentinel: the `time.Duration` value `-1`. -/
def backoffStop : Int := -1

/-- The `backoff.BackOff` interface (`NextBackOff`, `Reset`) over an
explicit policy state; durations are `time.Duration` as `Int`
nanoseconds.  `retry` receives its two policies through this interface. -/
structure BackOff (σ : Type) where
  nextBackOff : σ → Int × σ
  reset : σ → σ

/-- Modelled from the spec: the repository's policy constructors
`newExponentialBackOff` and `newAggressiveExponentialBackOff` are not
under src/; §4.1 specifies exponential backoff with a ceiling after which
the policy signals Stop, and `Reset` returning to the initial state.
State is the current interval; past the ceiling `NextBackOff` is Stop. -/
def expoBackOff (initial factor ceiling : Int) : BackOff Int :=
  { nextBackOff := fun s => if s > ceiling then (backoffStop, s) else (s, s * factor)
    reset := fun _ => initial }

/-- One outcome of `s.client.Do(req)`: a transport-level failure, or a
response with a status code and (for 200) the body's read results. -/
inductive Attempt where
  | failure (e : String)
  | response (status : Nat) (body : List ReadResult)

/-- Observable events of the background task, in program order: sends on
the Messages channel (classified messages and the transport-error value),
`sleepOrDone` calls, body acquisition/closing, `group.Done()` and
`close(s.Messages)`. -/
inductive Ev where
  | msg (m : Message)
  | errMsg (e : String)
  | sleep (d : Int)
  | bodyOpened
  | bodyClosed
  | groupDone
  | channelClosed

/-- Result of one iteration of `retry`'s loop body: `ret` models the
`return` statements (the task terminates; its deferred calls then run),
`cont` models falling through to the next loop-guard check carrying the
`wait` variable (which the source never clears). -/
inductive StepRes (σ₁ σ₂ : Type) where
  | ret (evs : List Ev) (s1 : σ₁) (s2 : σ₂)
  | cont (evs : List Ev) (s1 : σ₁) (s2 : σ₂) (wait : Int)

/-- The tail of every non-returning switch arm: `resp.Body.Close()`, then
`if wait == backoff.Stop { return }`, then `sleepOrDone(wait, s.done)`. -/
def afterSwitch {σ₁ σ₂ : Type} (evs : List Ev) (s1 : σ₁) (s2 : σ₂) (wait : Int) :
    StepRes σ₁ σ₂ :=
  if wait = backoffStop then .ret (evs ++ [.bodyClosed]) s1 s2
  else .cont (evs ++ [.bodyClosed, .sleep wait]) s1 s2 wait

/-- One iteration of `retry`'s loop body (source lines 142–173): transport
failure sends the error and returns; 200 runs `receive` then resets both
policies; 503 consults the normal policy; 420/429 consult the aggressive
policy; any other status closes the body and returns. -/
def retryStep {σ₁ σ₂ : Type} (P1 : BackOff σ₁) (P2 : BackOff σ₂)
    (a : Attempt) (s1 : σ₁) (s2 : σ₂) (wait : Int) : StepRes σ₁ σ₂ :=
  match a with
  | .failure e => .ret [.errMsg e] s1 s2
  | .response status body =>
    if status = 200 then
      afterSwitch (.bodyOpened :: (receive body).map Ev.msg) (P1.reset s1) (P2.reset s2) wait
    else if status = 503 then
      afterSwitch [.bodyOpened] (P1.nextBackOff s1).2 s2 (P1.nextBackOff s1).1
    else if status = 420 ∨ status = 429 then
      afterSwitch [.bodyOpened] s1 (P2.nextBackOff s2).2 (P2.nextBackOff s2).1
    else
      .ret [.bodyOpened, .bodyClosed] s1 s2

/-- Number of response bodies an attempt acquires (each registers one
deferred `resp.Body.Close()`). -/
def openedOf : Attempt → Nat
  | .failure _ => 0
  | .response _ _ => 1

/-- The deferred calls run at `retry`'s exit, in last-in-first-out order:
the per-iteration deferred body closes, then `s.group.Done()` (registered
second), then `close(s.Messages)` (registered first, so it runs last). -/
def exitEvs (opened : Nat) : List Ev :=
  List.replicate opened .bodyClosed ++ [.groupDone, .channelClosed]

/-- The whole background task: iterate `retryStep` over a script of
connection attempts; an exhausted script stands for `stopped(s.done)`
turning true at the loop guard.  `opened` counts deferred body closes
accumulated so far.  Returns the task's event trace. -/
def retryGo {σ₁ σ₂ : Type} (P1 : BackOff σ₁) (P2 : BackOff σ₂) :
    List Attempt → σ₁ → σ₂ → Int → Nat → List Ev
  | [], _, _, _, opened => exitEvs opened
  | a :: rest, s1, s2, wait, opened =>
    match retryStep P1 P2 a s1 s2 wait with
    | .ret evs _ _ => evs ++ exitEvs (opened + openedOf a)
    | .cont evs s1' s2' w' => evs ++ retryGo P1 P2 rest s1' s2' w' (opened + openedOf a)

/-- A run as `newStream` starts it: `var wait time.Duration` is zero and
no body has been acquired yet. -/
def retryRun {σ₁ σ₂ : Type} (P1 : BackOff σ₁) (P2 : BackOff σ₂)
    (script : List Attempt) (s1 : σ₁) (s2 : σ₂) : List Ev :=
  retryGo P1 P2 script s1 s2 0 0

def Ev.isChannelClosed : Ev → Bool
  | .channelClosed => true
  | _ => false

def Ev.isBodyClosed : Ev → Bool
  | .bodyClosed => true
  | _ => false

def Ev.isBodyOpened : Ev → Bool
  | .bodyOpened => true
  | _ => false

def Ev.isSleep : Ev → Bool
  | .sleep _ => true
  | _ => false

def Ev.isSend : Ev → Bool
  | .msg _ => true
  | .errMsg _ => true
  | _ => false

/-- The facade state `Stop` touches: whether `s.done` has been closed and
whether `s.body` is non-nil.  The Messages channel and wait group live in
the background task's trace. -/
structure StreamFacade where
  doneClosed : Bool
  hasBody : Bool

/-- `close` on a Go channel: panics if the channel is already closed.
A panic is modelled as the `Except` error. -/
def closeChan (alreadyClosed : Bool) : Except String Bool :=
  if alreadyClosed then .error "close of closed channel" else .ok true

/-- `Stop` from the source: `close(s.done)`; then `s.body.Close()` when
the body is non-nil (an `io.Closer` close, which returns normally even on
an already-closed body); then `s.group.Wait()`, which returns once the
background task has called `group.Done()` (the task always reaches its
deferred calls, so the wait is modelled as returning). -/
def stop (s : StreamFacade) : Except String StreamFacade :=
  match closeChan s.doneClosed with
  | .error e => .error e
  | .ok _ => .ok { s with doneClosed := true }

/-- The variant `decodeMessage` produces is keyed by exactly the first
matching key of the priority chain. -/
theorem keyOf_decodeMessage (data : List (String × Json)) :
    keyOf (decodeMessage data) = firstMatch data := by
  unfold decodeMessage firstMatch
  by_cases hk1 : hasPath data "retweet_count" = true
  · simp [hk1, keyOf]
  by_cases hk2 : hasPath data "direct_message" = true
  · simp [hk1, hk2, keyOf]
  by_cases hk3 : hasPath data "delete" = true
  · simp [hk1, hk2, hk3, keyOf]
  by_cases hk4 : hasPath data "scrub_geo" = true
  · simp [hk1, hk2, hk3, hk4, keyOf]
  by_cases hk5 : hasPath data "limit" = true
  · simp [hk1, hk2, hk3, hk4, hk5, keyOf]
  by_cases hk6 : hasPath data "status_withheld" = true
  · simp [hk1, hk2, hk3, hk4, hk5, hk6, keyOf]
  by_cases hk7 : hasPath data "user_withheld" = true
  · simp [hk1, hk2, hk3, hk4, hk5, hk6, hk7, keyOf]
  by_cases hk8 : hasPath data "disconnect" = true
  · simp [hk1, hk2, hk3, hk4, hk5, hk6, hk7, hk8, keyOf]
  by_cases hk9 : hasPath data "warning" = true
  · simp [hk1, hk2, hk3, hk4, hk5, hk6, hk7, hk8, hk9, keyOf]
  by_cases hk10 : hasPath data "friends" = true
  · simp [hk1, hk2, hk3, hk4, hk5, hk6, hk7, hk8, hk9, hk10, keyOf]
  by_cases hk11 : hasPath data "event" = true
  · simp [hk1, hk2, hk3, hk4, hk5, hk6, hk7, hk8, hk9, hk10, hk11, keyOf]
  by_cases hk12 : hasPath data "matching_rules" = true
  · simp [hk1, hk2, hk3, hk4, hk5, hk6, hk7, hk8, hk9, hk10, hk11, hk12, keyOf]
  simp [hk1, hk2, hk3, hk4, hk5, hk6, hk7, hk8, hk9, hk10, hk11, hk12, keyOf]

/-- When no key of the chain is present the fallback arm returns the
parsed mapping itself. -/
theorem decodeMessage_no_match (data : List (String × Json))
    (h : firstMatch data = none) : decodeMessage data = .untypedRecord data := by
  unfold firstMatch at h
  by_cases hk1 : hasPath data "retweet_count" = true
  · simp [hk1] at h
  by_cases hk2 : hasPath data "direct_message" = true
  · simp [hk1, hk2] at h
  by_cases hk3 : hasPath data "delete" = true
  · simp [hk1, hk2, hk3] at h
  by_cases hk4 : hasPath data "scrub_geo" = true
  · simp [hk1, hk2, hk3, hk4] at h
  by_cases hk5 : hasPath data "limit" = true
  · simp [hk1, hk2, hk3, hk4, hk5] at h
  by_cases hk6 : hasPath data "status_withheld" = true
  · simp [hk1, hk2, hk3, hk4, hk5, hk6] at h
  by_cases hk7 : hasPath data "user_withheld" = true
  · simp [hk1, hk2, hk3, hk4, hk5, hk6, hk7] at h
  by_cases hk8 : hasPath data "disconnect" = true
  · simp [hk1, hk2, hk3, hk4, hk5, hk6, hk7, hk8] at h
  by_cases hk9 : hasPath data "warning" = true
  · simp [hk1, hk2, hk3, hk4, hk5, hk6, hk7, hk8, hk9] at h
  by_cases hk10 : hasPath data "friends" = true
  · simp [hk1, hk2, hk3, hk4, hk5, hk6, hk7, hk8, hk9, hk10] at h
  by_cases hk11 : hasPath data "event" = true
  · simp [hk1, hk2, hk3, hk4, hk5, hk6, hk7, hk8, hk9, hk10, hk11] at h
  by_cases hk12 : hasPath data "matching_rules" = true
  · simp [hk1, hk2, hk3, hk4, hk5, hk6, hk7, hk8, hk9, hk10, hk11, hk12] at h
  simp [decodeMessage, hk1, hk2, hk3, hk4, hk5, hk6, hk7, hk8, hk9, hk10, hk11, hk12]

/-- No arm of `decodeMessage` produces an unmarshal-error value: the
discarded `json.Unmarshal` results cannot surface there. -/
theorem decodeMessage_not_error (data : List (String × Json)) :
    (decodeMessage data).isDecodeError = false := by
  unfold decodeMessage
  by_cases hk1 : hasPath data "retweet_count" = true
  · simp [hk1, Message.isDecodeError]
  by_cases hk2 : hasPath data "direct_message" = true
  · simp [hk1, hk2, Message.isDecodeError]
  by_cases hk3 : hasPath data "delete" = true
  · simp [hk1, hk2, hk3, Message.isDecodeError]
  by_cases hk4 : hasPath data "scrub_geo" = true
  · simp [hk1, hk2, hk3, hk4, Message.isDecodeError]
  by_cases hk5 : hasPath data "limit" = true
  · simp [hk1, hk2, hk3, hk4, hk5, Message.isDecodeError]
  by_cases hk6 : hasPath data "status_withheld" = true
  · simp [hk1, hk2, hk3, hk4, hk5, hk6, Message.isDecodeError]
  by_cases hk7 : hasPath data "user_withheld" = true
  · simp [hk1, hk2, hk3, hk4, hk5, hk6, hk7, Message.isDecodeError]
  by_cases hk8 : hasPath data "disconnect" = true
  · simp [hk1, hk2, hk3, hk4, hk5, hk6, hk7, hk8, Message.isDecodeError]
  by_cases hk9 : hasPath data "warning" = true
  · simp [hk1, hk2, hk3, hk4, hk5, hk6, hk7, hk8, hk9, Message.isDecodeError]
  by_cases hk10 : hasPath data "friends" = true
  · simp [hk1, hk2, hk3, hk4, hk5, hk6, hk7, hk8, hk9, hk10, Message.isDecodeError]
  by_cases hk11 : hasPath data "event" = true
  · simp [hk1, hk2, hk3, hk4, hk5, hk6, hk7, hk8, hk9, hk10, hk11, Message.isDecodeError]
  by_cases hk12 : hasPath data "matching_rules" = true
  · simp [hk1, hk2, hk3, hk4, hk5, hk6, hk7, hk8, hk9, hk10, hk11, hk12, Message.isDecodeError]
  simp [hk1, hk2, hk3, hk4, hk5, hk6, hk7, hk8, hk9, hk10, hk11, hk12, Message.isDecodeError]

/-- C2: For every token that parses as a JSON object, the classifier
tests top-level key presence in exactly the fixed priority order
retweet_count, direct_message, delete, scrub_geo, limit, status_withheld,
user_withheld, disconnect, warning, friends, event, matching_rules; the
first key present determines the single variant produced, and the
envelope shapes are unwrapped to their inner payload before delivery
(`ptrField` / `deleteStatusPayload` are the unwrap of the notice structs;
`Option.none` is a nil payload pointer). -/
theorem decodeMessage_priority_order (data : List (String × Json)) :
    (hasPath data "retweet_count" = true →
      decodeMessage data = .tweet (tweetFromFields data))
    ∧ (hasPath data "retweet_count" = false →
       hasPath data "direct_message" = true →
      decodeMessage data = .directMessage (ptrField data "direct_message"))
    ∧ (hasPath data "retweet_count" = false →
       hasPath data "direct_message" = false →
       hasPath data "delete" = true →
      decodeMessage data = .statusDeletion (deleteStatusPayload data))
    ∧ (hasPath data "retweet_count" = false →
       hasPath data "direct_message" = false →
       hasPath data "delete" = false →
       hasPath data "scrub_geo" = true →
      decodeMessage data = .locationDeletion (ptrField data "scrub_geo"))
    ∧ (hasPath data "retweet_count" = false →
       hasPath data "direct_message" = false →
       hasPath data "delete" = false →
       hasPath data "scrub_geo" = false →
       hasPath data "limit" = true →
      decodeMessage data = .streamLimit (ptrField data "limit"))
    ∧ (hasPath data "retweet_count" = false →
       hasPath data "direct_message" = false →
       hasPath data "delete" = false →
       hasPath data "scrub_geo" = false →
       hasPath data "limit" = false →
       hasPath data "status_withheld" = true →
      decodeMessage data = .statusWithheld (ptrField data "status_withheld"))
    ∧ (hasPath data "retweet_count" = false →
       hasPath data "direct_message" = false →
       hasPath data "delete" = false →
       hasPath data "scrub_geo" = false →
       hasPath data "limit" = false →
       hasPath data "status_withheld" = false →
       hasPath data "user_withheld" = true →
      decodeMessage data = .userWithheld (ptrField data "user_withheld"))
    ∧ (hasPath data "retweet_count" = false →
       hasPath data "direct_message" = false →
       hasPath data "delete" = false →
       hasPath data "scrub_geo" = false →
       hasPath data "limit" = false →
       hasPath data "status_withheld" = false →
       hasPath data "user_withheld" = false →
       hasPath data "disconnect" = true →
      decodeMessage data = .streamDisconnect (ptrField data "disconnect"))
    ∧ (hasPath data "retweet_count" = false →
       hasPath data "direct_message" = false →
       hasPath data "delete" = false →
       hasPath data "scrub_geo" = false →
       hasPath data "limit" = false →
       hasPath data "status_withheld" = false →
       hasPath data "user_withheld" = false →
       hasPath data "disconnect" = false →
       hasPath data "warning" = true →
      decodeMessage data = .stallWarning (ptrField data "warning"))
    ∧ (hasPath data "retweet_count" = false →
       hasPath data "direct_message" = false →
       hasPath data "delete" = false →
       hasPath data "scrub_geo" = false →
       hasPath data "limit" = false →
       hasPath data "status_withheld" = false →
       hasPath data "user_withheld" = false →
       hasPath data "disconnect" = false →
       hasPath data "warning" = false →
       hasPath data "friends" = true →
      decodeMessage data = .friendsList data)
    ∧ (hasPath data "retweet_count" = false →
       hasPath data "direct_message" = false →
       hasPath data "delete" = false →
       hasPath data "scrub_geo" = false →
       hasPath data "limit" = false →
       hasPath data "status_withheld" = false →
       hasPath data "user_withheld" = false →
       hasPath data "disconnect" = false →
       hasPath data "warning" = false →
       hasPath data "friends" = false →
       hasPath data "event" = true →
      decodeMessage data = .event data)
    ∧ (hasPath data "retweet_count" = false →
       hasPath data "direct_message" = false →
       hasPath data "delete" = false →
       hasPath data "scrub_geo" = false →
       hasPath data "limit" = false →
       hasPath data "status_withheld" = false →
       hasPath data "user_withheld" = false →
       hasPath data "disconnect" = false →
       hasPath data "warning" = false →
       hasPath data "friends" = false →
       hasPath data "event" = false →
       hasPath data "matching_rules" = true →
      decodeMessage data = .streamData data) := by
  refine ⟨?_, ?_, ?_, ?_, ?_, ?_, ?_, ?_, ?_, ?_, ?_, ?_⟩
  all_goals intros
  all_goals simp [decodeMessage, *]

/-- Witness for C2: a direct-message envelope token chooses the
`direct_message` arm and is unwrapped to its inner payload. -/
theorem decodeMessage_priority_order_witness :
    decodeMessage [("direct_message", Json.obj [("sender_id", Json.str "9")])]
      = .directMessage (some (Json.obj [("sender_id", Json.str "9")])) :=
  (decodeMessage_priority_order
      [("direct_message", Json.obj [("sender_id", Json.str "9")])]).2.1 rfl rfl

/-- C3: classification is total and exclusive — `getMessage` is a total
function, an unmarshal failure returns that error as a `decodeError`, a
parsed object is classified by the first matching key (`firstMatch`), no
match falls back to the mapping verbatim; the concrete conjuncts settle
the two examples from the claim. -/
theorem getMessage_trichotomy (token : List Char) :
    (∀ e, unmarshalMap token = .error e → getMessage token = .decodeError e)
    ∧ (∀ data, unmarshalMap token = .ok data →
        getMessage token = decodeMessage data
        ∧ keyOf (getMessage token) = firstMatch data
        ∧ (firstMatch data = none → getMessage token = .untypedRecord data))
    ∧ getMessage "\x7b\"unrecognized_key\":true\x7d".data
        = .untypedRecord [("unrecognized_key", .bool true)]
    ∧ (getMessage "\x7bnot json".data).isDecodeError = true := by
  refine ⟨?_, ?_, rfl, rfl⟩
  · intro e h
    unfold getMessage
    rw [h]
  · intro data h
    have hg : getMessage token = decodeMessage data := by
      unfold getMessage
      rw [h]
    refine ⟨hg, ?_, ?_⟩
    · rw [hg]
      exact keyOf_decodeMessage data
    · intro hn
      rw [hg]
      exact decodeMessage_no_match data hn

/-- Witness for C3, at the claim's own example token. -/
theorem getMessage_trichotomy_witness :
    unmarshalMap "\x7b\"unrecognized_key\":true\x7d".data
        = .ok [("unrecognized_key", Json.bool true)]
    ∧ getMessage "\x7b\"unrecognized_key\":true\x7d".data
        = decodeMessage [("unrecognized_key", Json.bool true)] :=
  ⟨rfl, ((getMessage_trichotomy "\x7b\"unrecognized_key\":true\x7d".data).2.1
      [("unrecognized_key", Json.bool true)] rfl).1⟩

/-- C9 counterexample: the claim says a failing shape-selected structured
decode yields a DecodeError.  On the token whose object form is
`retweet_count: 0, id: 5` the chain selects the Tweet shape, the decode
of the number `5` into the string field `Tweet.ID` fails
(`tweetIdDecodeFails` is true), yet the source discards the
`json.Unmarshal` error and returns the partially-populated tweet (zero
`id`), not a DecodeError. -/
theorem decodeMessage_swallows_struct_decode_error :
    tweetIdDecodeFails [("retweet_count", Json.num "0"), ("id", Json.num "5")] = true
    ∧ unmarshalMap "\x7b\"retweet_count\":0,\"id\":5\x7d".data
        = .ok [("retweet_count", Json.num "0"), ("id", Json.num "5")]
    ∧ getMessage "\x7b\"retweet_count\":0,\"id\":5\x7d".data
        = .tweet { id := "", text := "" }
    ∧ (getMessage "\x7b\"retweet_count\":0,\"id\":5\x7d".data).isDecodeError = false :=
  ⟨rfl, rfl, rfl, rfl⟩

/-- C9 amended: when step 2 selects a shape and the structured decode of
the token into that shape fails, the classifier ignores the failure and
delivers the partially-populated variant (failed fields keep their zero
values); it never produces a DecodeError for a token whose top-level
unmarshal succeeded.  Stated for the Tweet arm, whose struct is in src. -/
theorem decodeMessage_partial_on_struct_decode_error (token : List Char)
    (data : List (String × Json))
    (hok : unmarshalMap token = .ok data)
    (hrt : hasPath data "retweet_count" = true) :
    getMessage token = .tweet (tweetFromFields data)
    ∧ (getMessage token).isDecodeError = false
    ∧ (tweetIdDecodeFails data = true → (tweetFromFields data).id = "") := by
  have hg : getMessage token = decodeMessage data := by
    unfold getMessage
    rw [hok]
  have hd : decodeMessage data = .tweet (tweetFromFields data) := by
    simp [decodeMessage, hrt]
  refine ⟨hg.trans hd, ?_, ?_⟩
  · rw [hg]
    exact decodeMessage_not_error data
  · intro hfail
    unfold tweetIdDecodeFails at hfail
    unfold tweetFromFields strFieldZero
    cases hl : lookupField data "id" with
    | none => rfl
    | some v =>
      rw [hl] at hfail
      cases v <;> simp_all

/-- Witness for the amended C9, at the counterexample token. -/
theorem decodeMessage_partial_on_struct_decode_error_witness :
    getMessage "\x7b\"retweet_count\":0,\"id\":5\x7d".data
      = .tweet (tweetFromFields [("retweet_count", Json.num "0"), ("id", Json.num "5")]) :=
  (decodeMessage_partial_on_struct_decode_error
      "\x7b\"retweet_count\":0,\"id\":5\x7d".data
      [("retweet_count", Json.num "0"), ("id", Json.num "5")] rfl rfl).1

/-- Shapes `json.Unmarshal` accepts into `map[string]interface{}`:
objects, and the literal `null` (which leaves the map nil). -/
def isObjOrNull : Json → Bool
  | .obj _ => true
  | .null => true
  | _ => false

/-- C10: a token that is valid JSON but not an object makes the map
unmarshal fail with a type error, which `getMessage` returns as the
DecodeError; the one exception is the literal `null`, which unmarshals
without error into a nil map and is returned as an UntypedRecord with an
empty mapping. -/
theorem getMessage_valid_nonobject_json (token : List Char) (v : Json)
    (hp : parseJson token = some v) (hv : isObjOrNull v = false) :
    getMessage token = .decodeError mapTypeErrMsg
    ∧ getMessage "null".data = .untypedRecord [] := by
  refine ⟨?_, rfl⟩
  unfold getMessage unmarshalMap
  rw [hp]
  cases v <;> simp_all [isObjOrNull]

/-- Witness for C10, at a JSON array token. -/
theorem getMessage_valid_nonobject_json_witness :
    parseJson "[1,2]".data = some (Json.arr [Json.num "1", Json.num "2"])
    ∧ getMessage "[1,2]".data = .decodeError mapTypeErrMsg :=
  ⟨rfl, (getMessage_valid_nonobject_json "[1,2]".data
      (Json.arr [Json.num "1", Json.num "2"]) rfl rfl).1⟩

/-- C8: the receive loop skips every zero-length token and keeps reading
(a keep-alive is neither sent nor treated as end-of-stream), any read
error ends reception from the connection, and the non-empty tokens are
forwarded — classified by `getMessage` — in exactly the order the frame
reader produced them. -/
theorem receive_skips_keepalives_in_order (rs : List ReadResult) :
    receive rs = ((tokensBeforeError rs).filter (fun d => !d.isEmpty)).map getMessage
    ∧ (∀ rest, receive (.tok [] :: rest) = receive rest)
    ∧ (∀ rest, receive (.err :: rest) = [])
    ∧ (∀ d rest, d.isEmpty = false →
        receive (.tok d :: rest) = getMessage d :: receive rest) := by
  refine ⟨?_, fun rest => by simp [receive], fun rest => rfl,
    fun d rest hd => by simp [receive, hd]⟩
  induction rs with
  | nil => rfl
  | cons r rest ih =>
    cases r with
    | err => rfl
    | tok d =>
      by_cases hd : d.isEmpty
      · simp [receive, tokensBeforeError, hd, ih]
      · simp [receive, tokensBeforeError, hd, ih]

/-- Witness for C8: a non-empty token is forwarded ahead of the rest. -/
theorem receive_skips_keepalives_in_order_witness :
    ("null".data.isEmpty = false)
    ∧ receive [.tok "null".data, .err] = getMessage "null".data :: receive [.err] :=
  ⟨rfl, (receive_skips_keepalives_in_order [ReadResult.err]).2.2.2 "null".data
      [ReadResult.err] rfl⟩

/-- C1: per connection attempt — a 503 advances only the normal policy
(the aggressive state is untouched); a 420 or 429 advances only the
aggressive policy; when the consulted policy signals Stop the step is a
`ret` (the task terminates) with no sleep; any other non-200 status is a
`ret` with no sleep, no policy change and no message; a transport-level
failure sends the error on the Messages channel and is a `ret`. -/
theorem retry_attempt_dispatch {σ₁ σ₂ : Type} (P1 : BackOff σ₁) (P2 : BackOff σ₂)
    (s1 : σ₁) (s2 : σ₂) (wait : Int) (body : List ReadResult) (e : String) (status : Nat) :
    retryStep P1 P2 (.response 503 body) s1 s2 wait
      = afterSwitch [.bodyOpened] (P1.nextBackOff s1).2 s2 (P1.nextBackOff s1).1
    ∧ ((P1.nextBackOff s1).1 = backoffStop →
        retryStep P1 P2 (.response 503 body) s1 s2 wait
          = .ret [.bodyOpened, .bodyClosed] (P1.nextBackOff s1).2 s2)
    ∧ ((P1.nextBackOff s1).1 ≠ backoffStop →
        retryStep P1 P2 (.response 503 body) s1 s2 wait
          = .cont [.bodyOpened, .bodyClosed, .sleep (P1.nextBackOff s1).1]
              (P1.nextBackOff s1).2 s2 (P1.nextBackOff s1).1)
    ∧ (status = 420 ∨ status = 429 →
        retryStep P1 P2 (.response status body) s1 s2 wait
          = afterSwitch [.bodyOpened] s1 (P2.nextBackOff s2).2 (P2.nextBackOff s2).1)
    ∧ ((P2.nextBackOff s2).1 = backoffStop →
        retryStep P1 P2 (.response 429 body) s1 s2 wait
          = .ret [.bodyOpened, .bodyClosed] s1 (P2.nextBackOff s2).2)
    ∧ (status ≠ 200 → status ≠ 503 → status ≠ 420 → status ≠ 429 →
        retryStep P1 P2 (.response status body) s1 s2 wait
          = .ret [.bodyOpened, .bodyClosed] s1 s2)
    ∧ retryStep P1 P2 (.failure e) s1 s2 wait = .ret [.errMsg e] s1 s2 := by
  have h503 : retryStep P1 P2 (.response 503 body) s1 s2 wait
      = afterSwitch [.bodyOpened] (P1.nextBackOff s1).2 s2 (P1.nextBackOff s1).1 := by
    norm_num [retryStep]
  have h42x : ∀ st : Nat, st = 420 ∨ st = 429 →
      retryStep P1 P2 (.response st body) s1 s2 wait
        = afterSwitch [.bodyOpened] s1 (P2.nextBackOff s2).2 (P2.nextBackOff s2).1 := by
    rintro st (rfl | rfl) <;> norm_num [retryStep]
  refine ⟨h503, ?_, ?_, h42x status, ?_, ?_, rfl⟩
  · intro h
    rw [h503]
    simp [afterSwitch, h]
  · intro h
    rw [h503]
    simp [afterSwitch, h]
  · intro h
    rw [h42x 429 (Or.inr rfl)]
    simp [afterSwitch, h]
  · intro h200 h503' h420 h429
    simp [retryStep, h200, h503', h420, h429]

/-- Witness for C1: a 404 response terminates the task at once; body
closed, no sleep, no policy advanced, nothing sent. -/
theorem retry_attempt_dispatch_witness :
    ((404 : Nat) ≠ 200 ∧ (404 : Nat) ≠ 503 ∧ (404 : Nat) ≠ 420 ∧ (404 : Nat) ≠ 429)
    ∧ retryStep (expoBackOff 1 2 100) (expoBackOff 4 2 1000)
        (.response 404 []) (1 : Int) (4 : Int) 0
      = .ret [.bodyOpened, .bodyClosed] 1 4 :=
  ⟨by decide,
    (retry_attempt_dispatch (expoBackOff 1 2 100) (expoBackOff 4 2 1000)
        1 4 0 [] "" 404).2.2.2.2.2.1 (by decide) (by decide) (by decide) (by decide)⟩

/-- C4 counterexample: `var wait time.Duration` is never cleared on the
200 path, so after `[503, 200]` (with exponential policies of initial
wait 1) the trace still performs `sleepOrDone(1)` after the successful
stream's body is closed — the claim's "no wait is performed" is false.
Index 5 of the trace is that residual sleep, between the 200's explicit
body close (index 4) and the exit defers. -/
theorem retry_sleeps_residual_wait_after_200 :
    retryRun (expoBackOff 1 2 100) (expoBackOff 4 2 1000)
        [.response 503 [], .response 200 []] 1 4
      = [.bodyOpened, .bodyClosed, .sleep 1, .bodyOpened, .bodyClosed, .sleep 1,
         .bodyClosed, .bodyClosed, .groupDone, .channelClosed]
    ∧ ((retryRun (expoBackOff 1 2 100) (expoBackOff 4 2 1000)
        [.response 503 [], .response 200 []] 1 4).drop 5).head? = some (.sleep 1) :=
  ⟨rfl, rfl⟩

/-- C4 amended: after a 200 response whose streaming ends normally, both
policies are reset to their initial state and neither is consulted (the
next 503 therefore gets the policy's initial wait again), but the loop
does not transition directly to the next attempt: it still performs
`sleepOrDone` with the residual `wait` value — the duration of the most
recent backoff, or zero if none has occurred. -/
theorem retry_200_resets_but_keeps_wait {σ₁ σ₂ : Type} (P1 : BackOff σ₁) (P2 : BackOff σ₂)
    (s1 : σ₁) (s2 : σ₂) (wait : Int) (body : List ReadResult)
    (h : wait ≠ backoffStop) :
    retryStep P1 P2 (.response 200 body) s1 s2 wait
      = .cont (.bodyOpened :: (receive body).map Ev.msg ++ [.bodyClosed, .sleep wait])
          (P1.reset s1) (P2.reset s2) wait
    ∧ (∀ i f c s, (expoBackOff i f c).nextBackOff ((expoBackOff i f c).reset s)
        = (expoBackOff i f c).nextBackOff i) := by
  constructor
  · simp [retryStep, afterSwitch, h]
  · intro i f c s
    rfl

/-- Witness for the amended C4: first-iteration 200 (residual wait 0). -/
theorem retry_200_resets_but_keeps_wait_witness :
    ((0 : Int) ≠ backoffStop)
    ∧ retryStep (expoBackOff 1 2 100) (expoBackOff 4 2 1000)
        (.response 200 []) (32 : Int) (64 : Int) 0
      = .cont [.bodyOpened, .bodyClosed, .sleep 0] 1 4 0 :=
  ⟨by decide,
    (retry_200_resets_but_keeps_wait (expoBackOff 1 2 100) (expoBackOff 4 2 1000)
        32 64 0 [] (by decide)).1⟩

/-- Message sends are neither body events nor channel closes. -/
theorem countP_map_msg_eq_zero (l : List Message) (p : Ev → Bool)
    (hp : ∀ m, p (Ev.msg m) = false) : (l.map Ev.msg).countP p = 0 := by
  induction l with
  | nil => rfl
  | cons m rest ih => simp [List.countP_cons, hp, ih]

/-- Inversion for `afterSwitch`: which event list each outcome carries. -/
theorem afterSwitch_evs {σ₁ σ₂ : Type} (pre : List Ev) (a1 : σ₁) (a2 : σ₂) (w : Int) :
    (∀ evs t1 t2, afterSwitch pre a1 a2 w = .ret evs t1 t2 →
      evs = pre ++ [Ev.bodyClosed])
    ∧ (∀ evs t1 t2 w', afterSwitch pre a1 a2 w = .cont evs t1 t2 w' →
      evs = pre ++ [Ev.bodyClosed, Ev.sleep w]) := by
  constructor
  · intro evs t1 t2 h
    unfold afterSwitch at h
    by_cases hw : w = backoffStop
    · rw [if_pos hw] at h
      cases h
      rfl
    · rw [if_neg hw] at h
      cases h
  · intro evs t1 t2 w' h
    unfold afterSwitch at h
    by_cases hw : w = backoffStop
    · rw [if_pos hw] at h
      cases h
    · rw [if_neg hw] at h
      cases h
      rfl

/-- Event counts of a single loop iteration: a returning step closes and
opens `openedOf a` bodies and never closes the channel; a continuing step
opens and (explicitly) closes exactly one body, never closes the channel,
and only a response can continue. -/
theorem retryStep_counts {σ₁ σ₂ : Type} (P1 : BackOff σ₁) (P2 : BackOff σ₂)
    (a : Attempt) (s1 : σ₁) (s2 : σ₂) (wait : Int) :
    (∀ evs t1 t2, retryStep P1 P2 a s1 s2 wait = .ret evs t1 t2 →
      evs.countP Ev.isBodyClosed = openedOf a
      ∧ evs.countP Ev.isBodyOpened = openedOf a
      ∧ evs.countP Ev.isChannelClosed = 0)
    ∧ (∀ evs t1 t2 w', retryStep P1 P2 a s1 s2 wait = .cont evs t1 t2 w' →
      evs.countP Ev.isBodyClosed = 1
      ∧ evs.countP Ev.isBodyOpened = 1
      ∧ evs.countP Ev.isChannelClosed = 0
      ∧ openedOf a = 1) := by
  cases a with
  | failure e =>
    constructor
    · intro evs t1 t2 h
      simp only [retryStep] at h
      cases h
      simp [openedOf, List.countP_cons, Ev.isBodyClosed, Ev.isBodyOpened, Ev.isChannelClosed]
    · intro evs t1 t2 w' h
      simp only [retryStep] at h
      cases h
  | response status body =>
    constructor
    · intro evs t1 t2 h
      simp only [retryStep] at h
      by_cases h200 : status = 200
      · rw [if_pos h200] at h
        have hevs := (afterSwitch_evs _ _ _ _).1 _ _ _ h
        subst hevs
        simp [openedOf, List.countP_append, List.countP_cons,
          countP_map_msg_eq_zero, Ev.isBodyClosed, Ev.isBodyOpened, Ev.isChannelClosed]
      · rw [if_neg h200] at h
        by_cases h503 : status = 503
        · rw [if_pos h503] at h
          have hevs := (afterSwitch_evs _ _ _ _).1 _ _ _ h
          subst hevs
          simp [openedOf, List.countP_append, List.countP_cons,
            Ev.isBodyClosed, Ev.isBodyOpened, Ev.isChannelClosed]
        · rw [if_neg h503] at h
          by_cases h42 : status = 420 ∨ status = 429
          · rw [if_pos h42] at h
            have hevs := (afterSwitch_evs _ _ _ _).1 _ _ _ h
            subst hevs
            simp [openedOf, List.countP_append, List.countP_cons,
              Ev.isBodyClosed, Ev.isBodyOpened, Ev.isChannelClosed]
          · rw [if_neg h42] at h
            cases h
            simp [openedOf, List.countP_cons,
              Ev.isBodyClosed, Ev.isBodyOpened, Ev.isChannelClosed]
    · intro evs t1 t2 w' h
      simp only [retryStep] at h
      by_cases h200 : status = 200
      · rw [if_pos h200] at h
        have hevs := (afterSwitch_evs _ _ _ _).2 _ _ _ _ h
        subst hevs
        simp [openedOf, List.countP_append, List.countP_cons,
          countP_map_msg_eq_zero, Ev.isBodyClosed, Ev.isBodyOpened, Ev.isChannelClosed]
      · rw [if_neg h200] at h
        by_cases h503 : status = 503
        · rw [if_pos h503] at h
          have hevs := (afterSwitch_evs _ _ _ _).2 _ _ _ _ h
          subst hevs
          simp [openedOf, List.countP_append, List.countP_cons,
            Ev.isBodyClosed, Ev.isBodyOpened, Ev.isChannelClosed]
        · rw [if_neg h503] at h
          by_cases h42 : status = 420 ∨ status = 429
          · rw [if_pos h42] at h
            have hevs := (afterSwitch_evs _ _ _ _).2 _ _ _ _ h
            subst hevs
            simp [openedOf, List.countP_append, List.countP_cons,
              Ev.isBodyClosed, Ev.isBodyOpened, Ev.isChannelClosed]
          · rw [if_neg h42] at h
            cases h

/-- Decomposition invariant of a whole task run: the trace is some prefix
(free of channel closes) followed by exactly one final `channelClosed`,
and body closes number twice the bodies opened plus the `opened` defers
already pending on entry. -/
theorem retryGo_decomp {σ₁ σ₂ : Type} (P1 : BackOff σ₁) (P2 : BackOff σ₂) :
    ∀ (script : List Attempt) (s1 : σ₁) (s2 : σ₂) (wait : Int) (opened : Nat),
    ∃ pre, retryGo P1 P2 script s1 s2 wait opened = pre ++ [Ev.channelClosed]
    ∧ pre.countP Ev.isChannelClosed = 0
    ∧ (pre ++ [Ev.channelClosed]).countP Ev.isBodyClosed
        = 2 * (pre ++ [Ev.channelClosed]).countP Ev.isBodyOpened + opened := by
  intro script
  induction script with
  | nil =>
    intro s1 s2 wait opened
    refine ⟨List.replicate opened .bodyClosed ++ [.groupDone], ?_, ?_, ?_⟩
    · simp [retryGo, exitEvs]
    · simp [List.countP_append, List.countP_replicate, Ev.isChannelClosed, List.countP_cons]
    · simp [List.countP_append, List.countP_replicate, List.countP_cons,
        Ev.isBodyClosed, Ev.isBodyOpened]
  | cons a rest ih =>
    intro s1 s2 wait opened
    rcases hstep : retryStep P1 P2 a s1 s2 wait with ⟨evs, t1, t2⟩ | ⟨evs, t1, t2, w'⟩
    · obtain ⟨hc, ho, hcc⟩ := (retryStep_counts P1 P2 a s1 s2 wait).1 evs t1 t2 hstep
      refine ⟨evs ++ (List.replicate (opened + openedOf a) .bodyClosed ++ [.groupDone]),
        ?_, ?_, ?_⟩
      · simp [retryGo, hstep, exitEvs]
      · simp [List.countP_append, List.countP_replicate, List.countP_cons,
          Ev.isChannelClosed, hcc]
      · simp [List.countP_append, List.countP_replicate, List.countP_cons,
          Ev.isBodyClosed, Ev.isBodyOpened, hc, ho]
        ring
    · obtain ⟨hc, ho, hcc, hone⟩ :=
        (retryStep_counts P1 P2 a s1 s2 wait).2 evs t1 t2 w' hstep
      obtain ⟨pre, hpre, hprecc, hprebody⟩ := ih t1 t2 w' (opened + openedOf a)
      refine ⟨evs ++ pre, ?_, ?_, ?_⟩
      · simp [retryGo, hstep, hpre]
      · simp [List.countP_append, hcc, hprecc]
      · simp only [List.countP_append] at hprebody ⊢
        simp only [hc, ho]
        omega

/-- C6: in every run of the background task the Messages channel is
closed exactly once, the close is the final event of the trace (so it
follows every send and every body close), and every acquired response
body is closed (twice: once explicitly, once by its deferred close)
before the channel close. -/
theorem messages_channel_closed_once_last {σ₁ σ₂ : Type} (P1 : BackOff σ₁)
    (P2 : BackOff σ₂) (script : List Attempt) (s1 : σ₁) (s2 : σ₂) :
    (retryRun P1 P2 script s1 s2).countP Ev.isChannelClosed = 1
    ∧ (retryRun P1 P2 script s1 s2).getLast? = some Ev.channelClosed
    ∧ (retryRun P1 P2 script s1 s2).countP Ev.isBodyClosed
        = 2 * (retryRun P1 P2 script s1 s2).countP Ev.isBodyOpened := by
  obtain ⟨pre, heq, hcc, hbody⟩ := retryGo_decomp P1 P2 script s1 s2 0 0
  unfold retryRun
  rw [heq]
  refine ⟨?_, List.getLast?_concat pre, ?_⟩
  · simp [List.countP_append, List.countP_cons, hcc, Ev.isChannelClosed]
  · simpa using hbody

/-- C5 counterexample: calling `Stop` twice does not return normally both
times — the second call reaches `close(s.done)` with the done channel
already closed, which is a Go runtime panic (`Except.error` here). -/
theorem stop_twice_panics :
    (do
      let s1 ← stop { doneClosed := false, hasBody := true }
      stop s1)
      = Except.error "close of closed channel" := rfl

/-- C5 amended: the first `Stop` call returns normally from every state
whose done channel is still open — including after the background task
has terminated on its own, since the task never closes `s.done` — but any
call on a facade whose done channel is already closed (in particular a
second `Stop`) panics closing the closed channel. -/
theorem stop_once_ok_then_panics (b : Bool) (s : StreamFacade)
    (h : s.doneClosed = true) :
    stop { doneClosed := false, hasBody := b }
      = .ok { doneClosed := true, hasBody := b }
    ∧ stop s = .error "close of closed channel" := by
  refine ⟨rfl, ?_⟩
  simp [stop, closeChan, h]

/-- Witness for the amended C5. -/
theorem stop_once_ok_then_panics_witness :
    (StreamFacade.mk true false).doneClosed = true
    ∧ (stop { doneClosed := false, hasBody := false }
        = .ok { doneClosed := true, hasBody := false }
       ∧ stop { doneClosed := true, hasBody := false }
        = .error "close of closed channel") :=
  ⟨rfl, stop_once_ok_then_panics false { doneClosed := true, hasBody := false } rfl⟩

end GoTwitter
